import Mathlib

/-!
Shallow embedding of `src/wagtail_vector_index/ai_utils/backends/base.py`.

The file resolves backend configuration (token limit, chunk overlap
characters, embedding output dimensions) from a settings mapping, falling
back to external per-model lookup tables, and wires a text splitter from the
resolved config.  External collaborators (the `tokens` and `embeddings`
modules, the text-splitter class and the length-calculator class) are opaque
in the source excerpt and are modelled as explicit parameters.

Python exceptions are modelled with `Except`: `ImproperlyConfigured` carries
its message; an uncaught `TypeError` (which the source's `except ValueError`
clauses do not intercept) is a separate error constructor.
-/

/-- A Python runtime value, as far as the settings overrides are concerned.
The settings keys are annotated `int | None` in the source, but the
annotation is not enforced at runtime, and the resolution code explicitly
handles strings (via `int(...)`), so the value domain is open; the
constructors below cover the kinds the resolution code distinguishes.
A float is modelled by its exact rational value (every finite Python float
is a rational, and `int()` on a finite float truncates toward zero). -/
inductive PyVal where
  | vNone : PyVal
  | vInt (n : Int) : PyVal
  | vStr (s : String) : PyVal
  | vFloat (q : Rat) : PyVal
  | vList (xs : List PyVal) : PyVal

/-- Python `v is None` (the guard of each resolver is `is not None`). -/
def PyVal.isNone : PyVal → Bool
  | .vNone => true
  | _ => false

/-- `repr(type(v))` for a `PyVal`, as interpolated into the
`ImproperlyConfigured` messages.  (CPython renders the class name inside
extra quote marks; the surrounding text is what the claims depend on.) -/
def pyTypeName : PyVal → String
  | .vNone => "<class NoneType>"
  | .vInt _ => "<class int>"
  | .vStr _ => "<class str>"
  | .vFloat _ => "<class float>"
  | .vList _ => "<class list>"

/-- The two exception kinds `int(v)` can raise: `ValueError` (bad string)
or `TypeError` (unsupported operand type such as `list` or `NoneType`). -/
inductive CoerceErr where
  | valueError : CoerceErr
  | typeError : CoerceErr
deriving DecidableEq

/-- Validity of the tail of a base-10 digit sequence with underscores, as
accepted by CPython `int(str)`: an underscore must be followed by a digit
(no trailing or doubled underscores). -/
def digitsTail : List Char → Bool
  | [] => true
  | c :: rest =>
    if c.isDigit then digitsTail rest
    else if c = '_' then
      match rest with
      | [] => false
      | d :: rest2 => d.isDigit && digitsTail (d :: rest2)
    else false

/-- Numeric value of a digit sequence, skipping underscores. -/
def digitsVal (cs : List Char) : Nat :=
  cs.foldl (fun acc c => if c = '_' then acc else acc * 10 + (c.toNat - '0'.toNat)) 0

/-- An unsigned base-10 integer literal as accepted by CPython `int(str)`
(leading digit required, single underscores between digits allowed). -/
def parseDigitSeq (cs : List Char) : Option Nat :=
  match cs with
  | [] => none
  | c :: rest => if c.isDigit && digitsTail rest then some (digitsVal (c :: rest)) else none

/-- Python `str.strip()` on a character list: drop leading and trailing
whitespace. -/
def pyStrip (cs : List Char) : List Char :=
  ((cs.dropWhile Char.isWhitespace).reverse.dropWhile Char.isWhitespace).reverse

/-- CPython `int(s)` for a string `s` (base 10): strip surrounding
whitespace, allow one optional sign, then a digit sequence.  `none` models
`ValueError`.  (CPython also strips some non-ASCII whitespace and accepts
non-ASCII decimal digits; the claims only involve ASCII strings.) -/
def pyParseInt (s : String) : Option Int :=
  match pyStrip s.toList with
  | [] => none
  | c :: rest =>
    if c = '+' then (parseDigitSeq rest).map Int.ofNat
    else if c = '-' then (parseDigitSeq rest).map (fun n => -(n : Int))
    else (parseDigitSeq (c :: rest)).map Int.ofNat

/-- Truncation toward zero of a rational, the behaviour of CPython
`int(float)` on a finite float. -/
def floatTrunc (q : Rat) : Int :=
  q.num.sign * ((q.num.natAbs / q.den : Nat) : Int)

/-- CPython `int(v)`: identity on ints, base-10 parse on strings
(`ValueError` on failure), truncation toward zero on floats, `TypeError`
on `None` and `list`. -/
def pyInt : PyVal → Except CoerceErr Int
  | .vInt n => .ok n
  | .vStr s =>
    match pyParseInt s with
    | some n => .ok n
    | none => .error .valueError
  | .vFloat q => .ok (floatTrunc q)
  | .vNone => .error .typeError
  | .vList _ => .error .typeError

/-- An exception escaping the resolution routines: a Django
`ImproperlyConfigured` with its message, or an uncaught `TypeError`. -/
inductive PyErr where
  | improperlyConfigured (msg : String) : PyErr
  | typeError : PyErr
deriving DecidableEq

/-- Decidable equality for `Except`, for evaluating resolution results at
concrete inputs. -/
instance {e a : Type} [DecidableEq e] [DecidableEq a] : DecidableEq (Except e a) :=
  fun x y =>
    match x, y with
    | .ok u, .ok v => decidable_of_iff (u = v) (by simp)
    | .error u, .error v => decidable_of_iff (u = v) (by simp)
    | .ok _, .error _ => isFalse (by simp)
    | .error _, .ok _ => isFalse (by simp)

/-- The message of the source line
`f-string: "{field}" is not an "int", it is a "{type(custom_value)}".` -/
def notAnIntMsg (field : String) (v : PyVal) : String :=
  "\"" ++ field ++ "\" is not an \"int\", it is a \"" ++ pyTypeName v ++ "\"."

/-- The message of the source line
`f-string: "{field}" is not configured for model "{model_id}".` -/
def notConfiguredMsg (field model_id : String) : String :=
  "\"" ++ field ++ "\" is not configured for model \"" ++ model_id ++ "\"."

/-- `needle` occurs as a contiguous substring of `msg`. -/
def mentions (msg needle : String) : Prop :=
  ∃ pre suf, msg = pre ++ needle ++ suf

/-- The external collaborators of the excerpt, as the resolution code calls
them.  `tokens.get_default_token_limit(model_id=...)` raising
`tokens.NoTokenLimitFound`, and
`embeddings.get_default_embedding_output_dimensions(model_id=...)` raising
`embeddings.EmbeddingOutputDimensionsNotFound`, are modelled by `Option`
results keyed on the model id.  `tokens.get_default_chunk_overlap()` is
called with no arguments and no exception handler in the source, so it is a
plain integer here. -/
structure Collaborators where
  get_default_token_limit : String → Option Int
  get_default_chunk_overlap : Int
  get_default_embedding_output_dimensions : String → Option Int

/-- `BaseConfigSettingsDict`: `MODEL_ID` is required; the override keys are
`NotRequired`, so each is `Option PyVal` where `none` means the key is
absent and `some v` means the key is present with value `v` (possibly
`PyVal.vNone`, Python `None`). -/
structure BaseConfigSettingsDict where
  MODEL_ID : String
  TOKEN_LIMIT : Option PyVal
  CHUNK_OVERLAP_CHARACTERS : Option PyVal

/-- `BaseEmbeddingConfigSettingsDict` adds `EMBEDDING_OUTPUT_DIMENSIONS`. -/
structure BaseEmbeddingConfigSettingsDict extends BaseConfigSettingsDict where
  EMBEDDING_OUTPUT_DIMENSIONS : Option PyVal

/-- Python `dict.get(key)`: `None` when the key is absent. -/
def dictGet : Option PyVal → PyVal
  | none => PyVal.vNone
  | some v => v

/-- `TextSplitterLengthCalculatorProtocol`: one method,
`get_splitter_length(text) -> int`. -/
structure TextSplitterLengthCalculator where
  get_splitter_length : String → Nat

/-- The keyword arguments `BaseBackend.get_text_splitter` passes to the
configured text-splitter class. -/
structure TextSplitterArgs where
  chunk_size : Int
  chunk_overlap : Int
  length_function : String → Nat

/-- `BaseConfig` dataclass: the resolved, immutable configuration.  The
splitter type `S` is opaque; `text_splitter_class` is the constructor the
backend will call with `TextSplitterArgs`, and
`text_splitter_length_calculator_class` is a nullary constructor. -/
structure BaseConfig (S : Type) where
  chunk_overlap_characters : Int
  model_id : String
  text_splitter_class : TextSplitterArgs → S
  text_splitter_length_calculator_class : Unit → TextSplitterLengthCalculator
  token_limit : Int

/-- `BaseConfig.get_token_limit`: a present override is coerced with
`int(...)`, `except ValueError` becoming `ImproperlyConfigured` (a
`TypeError` escapes); an absent override falls back to the per-model token
limit table, `NoTokenLimitFound` becoming `ImproperlyConfigured`. -/
def BaseConfig.get_token_limit (collab : Collaborators) (model_id : String)
    (custom_value : PyVal) : Except PyErr Int :=
  if custom_value.isNone then
    match collab.get_default_token_limit model_id with
    | some n => .ok n
    | none => .error (.improperlyConfigured (notConfiguredMsg "TOKEN_LIMIT" model_id))
  else
    match pyInt custom_value with
    | .ok n => .ok n
    | .error .valueError =>
      .error (.improperlyConfigured (notAnIntMsg "TOKEN_LIMIT" custom_value))
    | .error .typeError => .error .typeError

/-- `BaseConfig.get_chunk_overlap`: a present override is coerced exactly as
the token limit; an absent override returns
`tokens.get_default_chunk_overlap()` — no model id is passed and no
exception is caught on that path. -/
def BaseConfig.get_chunk_overlap (collab : Collaborators) (model_id : String)
    (custom_value : PyVal) : Except PyErr Int :=
  if custom_value.isNone then
    .ok collab.get_default_chunk_overlap
  else
    match pyInt custom_value with
    | .ok n => .ok n
    | .error .valueError =>
      .error (.improperlyConfigured (notAnIntMsg "CHUNK_OVERLAP_CHARACTERS" custom_value))
    | .error .typeError => .error .typeError

/-- `BaseConfig.from_settings`: resolve `token_limit`, then
`chunk_overlap_characters`, then build the dataclass.  An exception raised
by either resolver aborts the whole call (sequential statements; the first
exception propagates). -/
def BaseConfig.from_settings {S : Type} (collab : Collaborators)
    (config : BaseConfigSettingsDict)
    (text_splitter_class : TextSplitterArgs → S)
    (text_splitter_length_calculator_class : Unit → TextSplitterLengthCalculator) :
    Except PyErr (BaseConfig S) :=
  match BaseConfig.get_token_limit collab config.MODEL_ID (dictGet config.TOKEN_LIMIT) with
  | .error e => .error e
  | .ok token_limit =>
    match BaseConfig.get_chunk_overlap collab config.MODEL_ID
        (dictGet config.CHUNK_OVERLAP_CHARACTERS) with
    | .error e => .error e
    | .ok chunk_overlap_characters =>
      .ok { chunk_overlap_characters := chunk_overlap_characters
            model_id := config.MODEL_ID
            text_splitter_class := text_splitter_class
            text_splitter_length_calculator_class := text_splitter_length_calculator_class
            token_limit := token_limit }

/-- `BaseEmbeddingConfig` dataclass: `BaseConfig` plus
`embedding_output_dimensions`. -/
structure BaseEmbeddingConfig (S : Type) extends BaseConfig S where
  embedding_output_dimensions : Int

/-- `BaseEmbeddingConfig.get_embedding_output_dimensions`: same shape as
`get_token_limit`, against the embedding-dimension table
(`EmbeddingOutputDimensionsNotFound` becoming `ImproperlyConfigured`). -/
def BaseEmbeddingConfig.get_embedding_output_dimensions (collab : Collaborators)
    (model_id : String) (custom_value : PyVal) : Except PyErr Int :=
  if custom_value.isNone then
    match collab.get_default_embedding_output_dimensions model_id with
    | some n => .ok n
    | none =>
      .error (.improperlyConfigured (notConfiguredMsg "EMBEDDING_OUTPUT_DIMENSIONS" model_id))
  else
    match pyInt custom_value with
    | .ok n => .ok n
    | .error .valueError =>
      .error (.improperlyConfigured (notAnIntMsg "EMBEDDING_OUTPUT_DIMENSIONS" custom_value))
    | .error .typeError => .error .typeError

/-- `BaseEmbeddingConfig.from_settings`: resolve
`embedding_output_dimensions` first, put it into the constructor kwargs
(`kwargs.setdefault`), then delegate to `BaseConfig.from_settings`, whose
`cls(...)` call builds the embedding dataclass with the extra field. -/
def BaseEmbeddingConfig.from_settings {S : Type} (collab : Collaborators)
    (config : BaseEmbeddingConfigSettingsDict)
    (text_splitter_class : TextSplitterArgs → S)
    (text_splitter_length_calculator_class : Unit → TextSplitterLengthCalculator) :
    Except PyErr (BaseEmbeddingConfig S) :=
  match BaseEmbeddingConfig.get_embedding_output_dimensions collab config.MODEL_ID
      (dictGet config.EMBEDDING_OUTPUT_DIMENSIONS) with
  | .error e => .error e
  | .ok embedding_output_dimensions =>
    match BaseConfig.from_settings collab config.toBaseConfigSettingsDict
        text_splitter_class text_splitter_length_calculator_class with
    | .error e => .error e
    | .ok base =>
      .ok { toBaseConfig := base
            embedding_output_dimensions := embedding_output_dimensions }

/-- `BaseBackend`: holds one resolved config. -/
structure BaseBackend (S : Type) where
  config : BaseConfig S

/-- `BaseBackend.get_splitter_length_calculator`: instantiate the configured
length-calculation strategy class. -/
def BaseBackend.get_splitter_length_calculator {S : Type} (b : BaseBackend S) :
    TextSplitterLengthCalculator :=
  b.config.text_splitter_length_calculator_class ()

/-- `BaseBackend.get_text_splitter`: call the configured text-splitter class
with `chunk_size=token_limit`, `chunk_overlap=chunk_overlap_characters`, and
`length_function` bound to the length calculator instance's method. -/
def BaseBackend.get_text_splitter {S : Type} (b : BaseBackend S) : S :=
  b.config.text_splitter_class
    { chunk_size := b.config.token_limit
      chunk_overlap := b.config.chunk_overlap_characters
      length_function := (b.get_splitter_length_calculator).get_splitter_length }

/-! ### Concrete fixtures for evaluating the resolution at specific inputs -/

/-- A trivial text-splitter class: return the argument record itself. -/
def tsId : TextSplitterArgs → TextSplitterArgs := fun a => a

/-- A trivial length-calculator class: string length. -/
def lcLen : Unit → TextSplitterLengthCalculator :=
  fun _ => { get_splitter_length := String.length }

/-- Lookup tables with nothing registered for any model; the
chunk-overlap provider returns 100. -/
def emptyCollab : Collaborators :=
  { get_default_token_limit := fun _ => none
    get_default_chunk_overlap := 100
    get_default_embedding_output_dimensions := fun _ => none }

/-- Lookup tables registering a token limit of 8192 and 1536 embedding
output dimensions for model `gpt-4`; chunk-overlap provider returns 512. -/
def gpt4Collab : Collaborators :=
  { get_default_token_limit := fun m => if m = "gpt-4" then some 8192 else none
    get_default_chunk_overlap := 512
    get_default_embedding_output_dimensions := fun m => if m = "gpt-4" then some 1536 else none }

/-! ### Helper lemmas about the resolvers -/

theorem get_token_limit_coerced (collab : Collaborators) (m : String) {v : PyVal} {n : Int}
    (h : pyInt v = .ok n) : BaseConfig.get_token_limit collab m v = .ok n := by
  cases v <;> simp_all [BaseConfig.get_token_limit, PyVal.isNone, pyInt]

theorem get_chunk_overlap_coerced (collab : Collaborators) (m : String) {v : PyVal} {n : Int}
    (h : pyInt v = .ok n) : BaseConfig.get_chunk_overlap collab m v = .ok n := by
  cases v <;> simp_all [BaseConfig.get_chunk_overlap, PyVal.isNone, pyInt]

theorem get_embedding_output_dimensions_coerced (collab : Collaborators) (m : String)
    {v : PyVal} {n : Int} (h : pyInt v = .ok n) :
    BaseEmbeddingConfig.get_embedding_output_dimensions collab m v = .ok n := by
  cases v <;> simp_all [BaseEmbeddingConfig.get_embedding_output_dimensions, PyVal.isNone, pyInt]

theorem get_token_limit_of_default {collab : Collaborators} {m : String} {d : Int}
    (h : collab.get_default_token_limit m = some d) :
    BaseConfig.get_token_limit collab m PyVal.vNone = .ok d := by
  simp [BaseConfig.get_token_limit, PyVal.isNone, h]

theorem get_token_limit_of_missing {collab : Collaborators} {m : String}
    (h : collab.get_default_token_limit m = none) :
    BaseConfig.get_token_limit collab m PyVal.vNone
      = .error (.improperlyConfigured (notConfiguredMsg "TOKEN_LIMIT" m)) := by
  simp [BaseConfig.get_token_limit, PyVal.isNone, h]

theorem get_chunk_overlap_of_absent (collab : Collaborators) (m : String) :
    BaseConfig.get_chunk_overlap collab m PyVal.vNone
      = .ok collab.get_default_chunk_overlap := by
  simp [BaseConfig.get_chunk_overlap, PyVal.isNone]

theorem get_embedding_output_dimensions_of_default {collab : Collaborators} {m : String}
    {d : Int} (h : collab.get_default_embedding_output_dimensions m = some d) :
    BaseEmbeddingConfig.get_embedding_output_dimensions collab m PyVal.vNone = .ok d := by
  simp [BaseEmbeddingConfig.get_embedding_output_dimensions, PyVal.isNone, h]

theorem get_embedding_output_dimensions_of_missing {collab : Collaborators} {m : String}
    (h : collab.get_default_embedding_output_dimensions m = none) :
    BaseEmbeddingConfig.get_embedding_output_dimensions collab m PyVal.vNone
      = .error (.improperlyConfigured (notConfiguredMsg "EMBEDDING_OUTPUT_DIMENSIONS" m)) := by
  simp [BaseEmbeddingConfig.get_embedding_output_dimensions, PyVal.isNone, h]

/-- A successful `BaseConfig.from_settings` pins every field of the result:
each resolved field is the value its resolver returned, and the class
references are the ones passed in. -/
theorem from_settings_ok_fields {S : Type} {collab : Collaborators}
    {s : BaseConfigSettingsDict} {ts : TextSplitterArgs → S}
    {lc : Unit → TextSplitterLengthCalculator} {c : BaseConfig S}
    (h : BaseConfig.from_settings collab s ts lc = .ok c) :
    BaseConfig.get_token_limit collab s.MODEL_ID (dictGet s.TOKEN_LIMIT) = .ok c.token_limit
    ∧ BaseConfig.get_chunk_overlap collab s.MODEL_ID (dictGet s.CHUNK_OVERLAP_CHARACTERS)
        = .ok c.chunk_overlap_characters
    ∧ c.model_id = s.MODEL_ID
    ∧ c.text_splitter_class = ts
    ∧ c.text_splitter_length_calculator_class = lc := by
  unfold BaseConfig.from_settings at h
  cases h1 : BaseConfig.get_token_limit collab s.MODEL_ID (dictGet s.TOKEN_LIMIT) with
  | error e => rw [h1] at h; exact absurd h (by simp)
  | ok t =>
    rw [h1] at h
    cases h2 : BaseConfig.get_chunk_overlap collab s.MODEL_ID
        (dictGet s.CHUNK_OVERLAP_CHARACTERS) with
    | error e => rw [h2] at h; exact absurd h (by simp)
    | ok o =>
      rw [h2] at h
      injection h with h3
      subst h3
      exact ⟨rfl, rfl, rfl, rfl, rfl⟩

/-- A successful `BaseEmbeddingConfig.from_settings` pins the embedding
dimension to its resolver's value and the base part to the base
resolution. -/
theorem emb_from_settings_ok_fields {S : Type} {collab : Collaborators}
    {s : BaseEmbeddingConfigSettingsDict} {ts : TextSplitterArgs → S}
    {lc : Unit → TextSplitterLengthCalculator} {c : BaseEmbeddingConfig S}
    (h : BaseEmbeddingConfig.from_settings collab s ts lc = .ok c) :
    BaseEmbeddingConfig.get_embedding_output_dimensions collab s.MODEL_ID
        (dictGet s.EMBEDDING_OUTPUT_DIMENSIONS) = .ok c.embedding_output_dimensions
    ∧ BaseConfig.from_settings collab s.toBaseConfigSettingsDict ts lc = .ok c.toBaseConfig := by
  unfold BaseEmbeddingConfig.from_settings at h
  cases h1 : BaseEmbeddingConfig.get_embedding_output_dimensions collab s.MODEL_ID
      (dictGet s.EMBEDDING_OUTPUT_DIMENSIONS) with
  | error e => rw [h1] at h; exact absurd h (by simp)
  | ok d =>
    rw [h1] at h
    cases h2 : BaseConfig.from_settings collab s.toBaseConfigSettingsDict ts lc with
    | error e => rw [h2] at h; exact absurd h (by simp)
    | ok base =>
      rw [h2] at h
      injection h with h3
      subst h3
      exact ⟨rfl, rfl⟩

/-- An exception from the token-limit resolver aborts
`BaseConfig.from_settings` with that exception. -/
theorem from_settings_error_of_token_limit {S : Type} {collab : Collaborators}
    {s : BaseConfigSettingsDict} {e : PyErr}
    (ts : TextSplitterArgs → S) (lc : Unit → TextSplitterLengthCalculator)
    (h : BaseConfig.get_token_limit collab s.MODEL_ID (dictGet s.TOKEN_LIMIT) = .error e) :
    BaseConfig.from_settings collab s ts lc = .error e := by
  unfold BaseConfig.from_settings
  rw [h]

/-- An exception from the embedding-dimension resolver aborts
`BaseEmbeddingConfig.from_settings` with that exception. -/
theorem emb_from_settings_error_of_dimensions {S : Type} {collab : Collaborators}
    {s : BaseEmbeddingConfigSettingsDict} {e : PyErr}
    (ts : TextSplitterArgs → S) (lc : Unit → TextSplitterLengthCalculator)
    (h : BaseEmbeddingConfig.get_embedding_output_dimensions collab s.MODEL_ID
        (dictGet s.EMBEDDING_OUTPUT_DIMENSIONS) = .error e) :
    BaseEmbeddingConfig.from_settings collab s ts lc = .error e := by
  unfold BaseEmbeddingConfig.from_settings
  rw [h]

theorem notConfiguredMsg_mentions_field (f m : String) : mentions (notConfiguredMsg f m) f := by
  refine ⟨"\"", "\" is not configured for model \"" ++ m ++ "\".", ?_⟩
  simp [notConfiguredMsg, String.append_assoc]

theorem notConfiguredMsg_mentions_model (f m : String) : mentions (notConfiguredMsg f m) m := by
  refine ⟨"\"" ++ f ++ "\" is not configured for model \"", "\".", ?_⟩
  simp [notConfiguredMsg, String.append_assoc]

theorem notAnIntMsg_mentions_field (f : String) (v : PyVal) : mentions (notAnIntMsg f v) f := by
  refine ⟨"\"", "\" is not an \"int\", it is a \"" ++ pyTypeName v ++ "\".", ?_⟩
  simp [notAnIntMsg, String.append_assoc]

/-- `Except` result that is an `ImproperlyConfigured` exception. -/
def isConfigError {α : Type} : Except PyErr α → Bool
  | .error (.improperlyConfigured _) => true
  | _ => false

/-! ### Settings fixtures -/

/-- Embedding settings with all three overrides present as ints. -/
def sAll : BaseEmbeddingConfigSettingsDict :=
  { MODEL_ID := "gpt-4"
    TOKEN_LIMIT := some (PyVal.vInt 11)
    CHUNK_OVERLAP_CHARACTERS := some (PyVal.vInt 22)
    EMBEDDING_OUTPUT_DIMENSIONS := some (PyVal.vInt 33) }

/-- The config `sAll` resolves to under `gpt4Collab`. -/
def cAll : BaseEmbeddingConfig TextSplitterArgs :=
  { chunk_overlap_characters := 22
    model_id := "gpt-4"
    text_splitter_class := tsId
    text_splitter_length_calculator_class := lcLen
    token_limit := 11
    embedding_output_dimensions := 33 }

/-- Embedding settings for `gpt-4` with every override key absent. -/
def sNone : BaseEmbeddingConfigSettingsDict :=
  { MODEL_ID := "gpt-4"
    TOKEN_LIMIT := none
    CHUNK_OVERLAP_CHARACTERS := none
    EMBEDDING_OUTPUT_DIMENSIONS := none }

/-- The config `sNone` resolves to under `gpt4Collab`: all registered
defaults. -/
def cDef : BaseEmbeddingConfig TextSplitterArgs :=
  { chunk_overlap_characters := 512
    model_id := "gpt-4"
    text_splitter_class := tsId
    text_splitter_length_calculator_class := lcLen
    token_limit := 8192
    embedding_output_dimensions := 1536 }

/-- Base settings naming a model with nothing registered anywhere. -/
def sUnknown : BaseConfigSettingsDict :=
  { MODEL_ID := "unknown-model"
    TOKEN_LIMIT := none
    CHUNK_OVERLAP_CHARACTERS := none }

/-- Embedding settings naming a model with nothing registered anywhere. -/
def seUnknown : BaseEmbeddingConfigSettingsDict :=
  { MODEL_ID := "unknown-model"
    TOKEN_LIMIT := none
    CHUNK_OVERLAP_CHARACTERS := none
    EMBEDDING_OUTPUT_DIMENSIONS := none }

/-! ### Claims -/

/-- C1: for every settings mapping supplying a present, integer-coercible
override (`TOKEN_LIMIT`, `CHUNK_OVERLAP_CHARACTERS`, or
`EMBEDDING_OUTPUT_DIMENSIONS`), the corresponding field of the `Config`
returned by `from_settings` equals the coerced override value, for every
choice of external lookup tables (hence regardless of any registered
default for the model id). -/
theorem override_wins_over_registered_default {S : Type} (collab : Collaborators)
    (s : BaseConfigSettingsDict) (se : BaseEmbeddingConfigSettingsDict)
    (ts : TextSplitterArgs → S) (lc : Unit → TextSplitterLengthCalculator) :
    (∀ v n c, s.TOKEN_LIMIT = some v → pyInt v = .ok n →
        BaseConfig.from_settings collab s ts lc = .ok c → c.token_limit = n)
    ∧ (∀ v n c, s.CHUNK_OVERLAP_CHARACTERS = some v → pyInt v = .ok n →
        BaseConfig.from_settings collab s ts lc = .ok c → c.chunk_overlap_characters = n)
    ∧ (∀ v n c, se.EMBEDDING_OUTPUT_DIMENSIONS = some v → pyInt v = .ok n →
        BaseEmbeddingConfig.from_settings collab se ts lc = .ok c →
          c.embedding_output_dimensions = n) := by
  refine ⟨?_, ?_, ?_⟩
  · intro v n c hv hn hok
    obtain ⟨h1, -, -, -, -⟩ := from_settings_ok_fields hok
    rw [hv] at h1
    have h2 := get_token_limit_coerced collab s.MODEL_ID hn
    have h3 := h2.symm.trans h1
    injection h3 with h4
    exact h4.symm
  · intro v n c hv hn hok
    obtain ⟨-, h1, -, -, -⟩ := from_settings_ok_fields hok
    rw [hv] at h1
    have h2 := get_chunk_overlap_coerced collab s.MODEL_ID hn
    have h3 := h2.symm.trans h1
    injection h3 with h4
    exact h4.symm
  · intro v n c hv hn hok
    obtain ⟨h1, -⟩ := emb_from_settings_ok_fields hok
    rw [hv] at h1
    have h2 := get_embedding_output_dimensions_coerced collab se.MODEL_ID hn
    have h3 := h2.symm.trans h1
    injection h3 with h4
    exact h4.symm

/-- Witness for C1: with all three overrides supplied as 11, 22 and 33 and
`gpt-4` registered with different defaults (8192, 512, 1536), resolution
returns exactly the overrides. -/
theorem override_wins_over_registered_default_witness :
    BaseEmbeddingConfig.from_settings gpt4Collab sAll tsId lcLen = .ok cAll
    ∧ cAll.token_limit = 11
    ∧ cAll.chunk_overlap_characters = 22
    ∧ cAll.embedding_output_dimensions = 33 := by
  have heqE : BaseEmbeddingConfig.from_settings gpt4Collab sAll tsId lcLen = .ok cAll := rfl
  have heqB : BaseConfig.from_settings gpt4Collab sAll.toBaseConfigSettingsDict tsId lcLen
      = .ok cAll.toBaseConfig := rfl
  have h := override_wins_over_registered_default gpt4Collab
    sAll.toBaseConfigSettingsDict sAll tsId lcLen
  exact ⟨heqE, h.1 _ 11 _ rfl rfl heqB, h.2.1 _ 22 _ rfl rfl heqB, h.2.2 _ 33 _ rfl rfl heqE⟩

/-- C2: for every settings mapping omitting an override for a field whose
model id has a registered default (the token-limit table, the chunk-overlap
default provider, or the embedding-dimension table), the resolved `Config`
field equals that registered default. -/
theorem absent_override_uses_registered_default {S : Type} (collab : Collaborators)
    (s : BaseConfigSettingsDict) (se : BaseEmbeddingConfigSettingsDict)
    (ts : TextSplitterArgs → S) (lc : Unit → TextSplitterLengthCalculator) :
    (∀ d c, s.TOKEN_LIMIT = none → collab.get_default_token_limit s.MODEL_ID = some d →
        BaseConfig.from_settings collab s ts lc = .ok c → c.token_limit = d)
    ∧ (∀ c, s.CHUNK_OVERLAP_CHARACTERS = none →
        BaseConfig.from_settings collab s ts lc = .ok c →
          c.chunk_overlap_characters = collab.get_default_chunk_overlap)
    ∧ (∀ d c, se.EMBEDDING_OUTPUT_DIMENSIONS = none →
        collab.get_default_embedding_output_dimensions se.MODEL_ID = some d →
        BaseEmbeddingConfig.from_settings collab se ts lc = .ok c →
          c.embedding_output_dimensions = d) := by
  refine ⟨?_, ?_, ?_⟩
  · intro d c hnone hdef hok
    obtain ⟨h1, -, -, -, -⟩ := from_settings_ok_fields hok
    rw [hnone] at h1
    have h2 := get_token_limit_of_default hdef
    have h3 := h2.symm.trans h1
    injection h3 with h4
    exact h4.symm
  · intro c hnone hok
    obtain ⟨-, h1, -, -, -⟩ := from_settings_ok_fields hok
    rw [hnone] at h1
    have h2 := get_chunk_overlap_of_absent collab s.MODEL_ID
    have h3 := h2.symm.trans h1
    injection h3 with h4
    exact h4.symm
  · intro d c hnone hdef hok
    obtain ⟨h1, -⟩ := emb_from_settings_ok_fields hok
    rw [hnone] at h1
    have h2 := get_embedding_output_dimensions_of_default hdef
    have h3 := h2.symm.trans h1
    injection h3 with h4
    exact h4.symm

/-- Witness for C2: with every override key absent and `gpt-4` registered
with defaults 8192, 512 (global chunk overlap) and 1536, resolution returns
exactly those defaults. -/
theorem absent_override_uses_registered_default_witness :
    BaseEmbeddingConfig.from_settings gpt4Collab sNone tsId lcLen = .ok cDef
    ∧ cDef.token_limit = 8192
    ∧ cDef.chunk_overlap_characters = 512
    ∧ cDef.embedding_output_dimensions = 1536 := by
  have heqE : BaseEmbeddingConfig.from_settings gpt4Collab sNone tsId lcLen = .ok cDef := rfl
  have heqB : BaseConfig.from_settings gpt4Collab sNone.toBaseConfigSettingsDict tsId lcLen
      = .ok cDef.toBaseConfig := rfl
  have h := absent_override_uses_registered_default gpt4Collab
    sNone.toBaseConfigSettingsDict sNone tsId lcLen
  exact ⟨heqE, h.1 8192 _ rfl rfl heqB, h.2.1 _ rfl heqB, h.2.2 1536 _ rfl rfl heqE⟩

/-- C3: omitting an override for a field whose model id has no registered
default makes resolution fail with `ImproperlyConfigured`, and the message
mentions both the offending settings key and the model id (shown for
`TOKEN_LIMIT` on the base resolution and for `EMBEDDING_OUTPUT_DIMENSIONS`
on the embedding resolution). -/
theorem missing_default_raises_improperly_configured {S : Type} (collab : Collaborators)
    (s : BaseConfigSettingsDict) (se : BaseEmbeddingConfigSettingsDict)
    (ts : TextSplitterArgs → S) (lc : Unit → TextSplitterLengthCalculator) :
    (s.TOKEN_LIMIT = none → collab.get_default_token_limit s.MODEL_ID = none →
        BaseConfig.from_settings collab s ts lc
          = .error (.improperlyConfigured (notConfiguredMsg "TOKEN_LIMIT" s.MODEL_ID))
        ∧ mentions (notConfiguredMsg "TOKEN_LIMIT" s.MODEL_ID) "TOKEN_LIMIT"
        ∧ mentions (notConfiguredMsg "TOKEN_LIMIT" s.MODEL_ID) s.MODEL_ID)
    ∧ (se.EMBEDDING_OUTPUT_DIMENSIONS = none →
        collab.get_default_embedding_output_dimensions se.MODEL_ID = none →
        BaseEmbeddingConfig.from_settings collab se ts lc
          = .error (.improperlyConfigured
              (notConfiguredMsg "EMBEDDING_OUTPUT_DIMENSIONS" se.MODEL_ID))
        ∧ mentions (notConfiguredMsg "EMBEDDING_OUTPUT_DIMENSIONS" se.MODEL_ID)
            "EMBEDDING_OUTPUT_DIMENSIONS"
        ∧ mentions (notConfiguredMsg "EMBEDDING_OUTPUT_DIMENSIONS" se.MODEL_ID) se.MODEL_ID) := by
  constructor
  · intro h0 h1
    refine ⟨?_, notConfiguredMsg_mentions_field _ _, notConfiguredMsg_mentions_model _ _⟩
    apply from_settings_error_of_token_limit
    rw [h0]
    exact get_token_limit_of_missing h1
  · intro h0 h1
    refine ⟨?_, notConfiguredMsg_mentions_field _ _, notConfiguredMsg_mentions_model _ _⟩
    apply emb_from_settings_error_of_dimensions
    rw [h0]
    exact get_embedding_output_dimensions_of_missing h1

/-- Witness for C3: `MODEL_ID = "unknown-model"` with nothing registered
raises `ImproperlyConfigured`, and the message mentions `TOKEN_LIMIT`
(resp. `EMBEDDING_OUTPUT_DIMENSIONS`) and `unknown-model`. -/
theorem missing_default_raises_improperly_configured_witness :
    (BaseConfig.from_settings emptyCollab sUnknown tsId lcLen
        = .error (.improperlyConfigured (notConfiguredMsg "TOKEN_LIMIT" "unknown-model"))
      ∧ mentions (notConfiguredMsg "TOKEN_LIMIT" "unknown-model") "TOKEN_LIMIT"
      ∧ mentions (notConfiguredMsg "TOKEN_LIMIT" "unknown-model") "unknown-model")
    ∧ (BaseEmbeddingConfig.from_settings emptyCollab seUnknown tsId lcLen
        = .error (.improperlyConfigured
            (notConfiguredMsg "EMBEDDING_OUTPUT_DIMENSIONS" "unknown-model"))
      ∧ mentions (notConfiguredMsg "EMBEDDING_OUTPUT_DIMENSIONS" "unknown-model")
          "EMBEDDING_OUTPUT_DIMENSIONS"
      ∧ mentions (notConfiguredMsg "EMBEDDING_OUTPUT_DIMENSIONS" "unknown-model")
          "unknown-model") := by
  have h := missing_default_raises_improperly_configured emptyCollab sUnknown seUnknown tsId lcLen
  exact ⟨h.1 rfl rfl, h.2 rfl rfl⟩

/-- C4 counterexample: a list override cannot be coerced to an integer, yet
resolution does not fail with a configuration error — the `TypeError` from
`int(...)` escapes the `except ValueError` handler uncaught. -/
theorem list_override_escapes_as_typeerror :
    BaseConfig.from_settings emptyCollab
      { MODEL_ID := "m"
        TOKEN_LIMIT := some (PyVal.vList [])
        CHUNK_OVERLAP_CHARACTERS := none } tsId lcLen = .error PyErr.typeError
    ∧ isConfigError (BaseConfig.from_settings emptyCollab
      { MODEL_ID := "m"
        TOKEN_LIMIT := some (PyVal.vList [])
        CHUNK_OVERLAP_CHARACTERS := none } tsId lcLen) = false :=
  ⟨rfl, rfl⟩

/-- C4 (amended): every present override on which `int(...)` raises
`ValueError` makes resolution fail with `ImproperlyConfigured` naming the
offending field; a present override on which `int(...)` raises `TypeError`
propagates the `TypeError` instead. -/
theorem value_error_override_names_field {S : Type} (collab : Collaborators) (m : String) :
    (∀ v, pyInt v = .error .valueError →
        BaseConfig.get_token_limit collab m v
          = .error (.improperlyConfigured (notAnIntMsg "TOKEN_LIMIT" v))
        ∧ BaseConfig.get_chunk_overlap collab m v
          = .error (.improperlyConfigured (notAnIntMsg "CHUNK_OVERLAP_CHARACTERS" v))
        ∧ BaseEmbeddingConfig.get_embedding_output_dimensions collab m v
          = .error (.improperlyConfigured (notAnIntMsg "EMBEDDING_OUTPUT_DIMENSIONS" v))
        ∧ mentions (notAnIntMsg "TOKEN_LIMIT" v) "TOKEN_LIMIT"
        ∧ mentions (notAnIntMsg "CHUNK_OVERLAP_CHARACTERS" v) "CHUNK_OVERLAP_CHARACTERS"
        ∧ mentions (notAnIntMsg "EMBEDDING_OUTPUT_DIMENSIONS" v) "EMBEDDING_OUTPUT_DIMENSIONS")
    ∧ (∀ v, v.isNone = false → pyInt v = .error .typeError →
        BaseConfig.get_token_limit collab m v = .error PyErr.typeError
        ∧ BaseConfig.get_chunk_overlap collab m v = .error PyErr.typeError
        ∧ BaseEmbeddingConfig.get_embedding_output_dimensions collab m v
            = .error PyErr.typeError)
    ∧ (∀ (s : BaseConfigSettingsDict) (ts : TextSplitterArgs → S)
          (lc : Unit → TextSplitterLengthCalculator) v,
        s.TOKEN_LIMIT = some v → pyInt v = .error .valueError →
        BaseConfig.from_settings collab s ts lc
          = .error (.improperlyConfigured (notAnIntMsg "TOKEN_LIMIT" v))) := by
  have key : ∀ (mm : String) v, pyInt v = .error CoerceErr.valueError →
      BaseConfig.get_token_limit collab mm v
        = .error (.improperlyConfigured (notAnIntMsg "TOKEN_LIMIT" v))
      ∧ BaseConfig.get_chunk_overlap collab mm v
        = .error (.improperlyConfigured (notAnIntMsg "CHUNK_OVERLAP_CHARACTERS" v))
      ∧ BaseEmbeddingConfig.get_embedding_output_dimensions collab mm v
        = .error (.improperlyConfigured (notAnIntMsg "EMBEDDING_OUTPUT_DIMENSIONS" v)) := by
    intro mm v hv
    refine ⟨?_, ?_, ?_⟩ <;>
      cases v <;>
        simp_all [BaseConfig.get_token_limit, BaseConfig.get_chunk_overlap,
          BaseEmbeddingConfig.get_embedding_output_dimensions, PyVal.isNone, pyInt]
  refine ⟨?_, ?_, ?_⟩
  · intro v hv
    obtain ⟨h1, h2, h3⟩ := key m v hv
    exact ⟨h1, h2, h3, notAnIntMsg_mentions_field _ _, notAnIntMsg_mentions_field _ _,
      notAnIntMsg_mentions_field _ _⟩
  · intro v hn hv
    refine ⟨?_, ?_, ?_⟩ <;>
      cases v <;>
        simp_all [BaseConfig.get_token_limit, BaseConfig.get_chunk_overlap,
          BaseEmbeddingConfig.get_embedding_output_dimensions, PyVal.isNone, pyInt]
  · intro s ts lc v hv hcoerce
    apply from_settings_error_of_token_limit
    rw [hv]
    exact (key s.MODEL_ID v hcoerce).1

/-- Witness for C4 (amended): the non-numeric string `"abc"` yields
`ImproperlyConfigured` mentioning `TOKEN_LIMIT`, while the list `[]` yields
an uncaught `TypeError`. -/
theorem value_error_override_names_field_witness :
    BaseConfig.get_token_limit emptyCollab "m" (PyVal.vStr "abc")
      = .error (.improperlyConfigured (notAnIntMsg "TOKEN_LIMIT" (PyVal.vStr "abc")))
    ∧ mentions (notAnIntMsg "TOKEN_LIMIT" (PyVal.vStr "abc")) "TOKEN_LIMIT"
    ∧ BaseConfig.get_token_limit emptyCollab "m" (PyVal.vList []) = .error PyErr.typeError
    ∧ BaseConfig.from_settings emptyCollab
      { MODEL_ID := "m"
        TOKEN_LIMIT := some (PyVal.vStr "abc")
        CHUNK_OVERLAP_CHARACTERS := none } tsId lcLen
      = .error (.improperlyConfigured (notAnIntMsg "TOKEN_LIMIT" (PyVal.vStr "abc"))) := by
  have h := @value_error_override_names_field TextSplitterArgs emptyCollab "m"
  exact ⟨(h.1 (PyVal.vStr "abc") rfl).1, (h.1 (PyVal.vStr "abc") rfl).2.2.2.1,
    (h.2.1 (PyVal.vList []) rfl rfl).1,
    h.2.2 { MODEL_ID := "m"
            TOKEN_LIMIT := some (PyVal.vStr "abc")
            CHUNK_OVERLAP_CHARACTERS := none } tsId lcLen (PyVal.vStr "abc") rfl rfl⟩

/-- C5 counterexample: for a model id with nothing registered in any
per-model table, settings omitting `CHUNK_OVERLAP_CHARACTERS` still resolve
(no configuration error), the chunk overlap being the global provider value
(100) independently of the model id — refuting that the chunk-overlap
default is model-specific and that its absence can fail resolution. -/
theorem chunk_overlap_absent_never_fails :
    (BaseConfig.from_settings emptyCollab
      { MODEL_ID := "unknown-model"
        TOKEN_LIMIT := some (PyVal.vInt 10)
        CHUNK_OVERLAP_CHARACTERS := none } tsId lcLen).map
        (fun c => c.chunk_overlap_characters) = .ok 100
    ∧ (BaseConfig.from_settings emptyCollab
      { MODEL_ID := "another-model"
        TOKEN_LIMIT := some (PyVal.vInt 10)
        CHUNK_OVERLAP_CHARACTERS := none } tsId lcLen).map
        (fun c => c.chunk_overlap_characters) = .ok 100 :=
  ⟨rfl, rfl⟩

/-- C5 (amended): with the override absent, `TOKEN_LIMIT` and
`EMBEDDING_OUTPUT_DIMENSIONS` are looked up in per-model tables and a
missing registration raises `ImproperlyConfigured`; `CHUNK_OVERLAP_CHARACTERS`
instead takes the value of the global chunk-overlap provider, identically
for every model id, and that path raises nothing. -/
theorem chunk_overlap_default_is_global {S : Type} (collab : Collaborators)
    (m1 m2 : String) :
    BaseConfig.get_chunk_overlap collab m1 PyVal.vNone
      = .ok collab.get_default_chunk_overlap
    ∧ BaseConfig.get_chunk_overlap collab m1 PyVal.vNone
      = BaseConfig.get_chunk_overlap collab m2 PyVal.vNone
    ∧ (∀ (s : BaseConfigSettingsDict) (ts : TextSplitterArgs → S)
          (lc : Unit → TextSplitterLengthCalculator) c,
        s.CHUNK_OVERLAP_CHARACTERS = none →
        BaseConfig.from_settings collab s ts lc = .ok c →
          c.chunk_overlap_characters = collab.get_default_chunk_overlap)
    ∧ (collab.get_default_token_limit m1 = none →
        BaseConfig.get_token_limit collab m1 PyVal.vNone
          = .error (.improperlyConfigured (notConfiguredMsg "TOKEN_LIMIT" m1)))
    ∧ (collab.get_default_embedding_output_dimensions m1 = none →
        BaseEmbeddingConfig.get_embedding_output_dimensions collab m1 PyVal.vNone
          = .error (.improperlyConfigured
              (notConfiguredMsg "EMBEDDING_OUTPUT_DIMENSIONS" m1))) := by
  refine ⟨get_chunk_overlap_of_absent collab m1, rfl, ?_, ?_, ?_⟩
  · intro s ts lc c hnone hok
    obtain ⟨-, h1, -, -, -⟩ := from_settings_ok_fields hok
    rw [hnone] at h1
    have h2 := get_chunk_overlap_of_absent collab s.MODEL_ID
    have h3 := h2.symm.trans h1
    injection h3 with h4
    exact h4.symm
  · exact fun h => get_token_limit_of_missing h
  · exact fun h => get_embedding_output_dimensions_of_missing h

/-- Witness for C5 (amended): under empty per-model tables, the absent
chunk overlap resolves to the provider value 100 for any model id, while
the absent token limit and embedding dimensions raise
`ImproperlyConfigured`. -/
theorem chunk_overlap_default_is_global_witness :
    BaseConfig.get_chunk_overlap emptyCollab "unknown-model" PyVal.vNone = .ok 100
    ∧ BaseConfig.get_chunk_overlap emptyCollab "unknown-model" PyVal.vNone
      = BaseConfig.get_chunk_overlap emptyCollab "another-model" PyVal.vNone
    ∧ BaseConfig.get_token_limit emptyCollab "unknown-model" PyVal.vNone
      = .error (.improperlyConfigured (notConfiguredMsg "TOKEN_LIMIT" "unknown-model"))
    ∧ BaseEmbeddingConfig.get_embedding_output_dimensions emptyCollab
        "unknown-model" PyVal.vNone
      = .error (.improperlyConfigured
          (notConfiguredMsg "EMBEDDING_OUTPUT_DIMENSIONS" "unknown-model")) := by
  have h := @chunk_overlap_default_is_global TextSplitterArgs emptyCollab
    "unknown-model" "another-model"
  exact ⟨h.1, h.2.1, h.2.2.2.1 rfl, h.2.2.2.2 rfl⟩

/-- A string mentioned in a message occurs as an infix of its character
list (used to decide non-occurrence at concrete inputs). -/
theorem mentions_occurs_in_chars {msg needle : String} (h : mentions msg needle) :
    needle.toList <:+: msg.toList := by
  obtain ⟨pre, suf, rfl⟩ := h
  exact ⟨pre.toList, suf.toList, by simp [String.toList, String.data_append]⟩

/-- C6 counterexample: the failure of `from_settings` is not always a
descriptive error identifying the field and model at fault.  A list
override for `CHUNK_OVERLAP_CHARACTERS` aborts the base resolution with a
bare uncaught `TypeError` naming neither field nor model (not an
`ImproperlyConfigured` at all), and the `ValueError`-path message for a
bad `TOKEN_LIMIT` override names the field but not the model
(`my-model` does not occur in it). -/
theorem atomicity_error_lacks_field_and_model :
    BaseConfig.from_settings emptyCollab
      { MODEL_ID := "my-model"
        TOKEN_LIMIT := some (PyVal.vInt 1)
        CHUNK_OVERLAP_CHARACTERS := some (PyVal.vList []) } tsId lcLen
      = .error PyErr.typeError
    ∧ isConfigError (BaseConfig.from_settings emptyCollab
      { MODEL_ID := "my-model"
        TOKEN_LIMIT := some (PyVal.vInt 1)
        CHUNK_OVERLAP_CHARACTERS := some (PyVal.vList []) } tsId lcLen) = false
    ∧ BaseConfig.from_settings emptyCollab
      { MODEL_ID := "my-model"
        TOKEN_LIMIT := some (PyVal.vStr "abc")
        CHUNK_OVERLAP_CHARACTERS := none } tsId lcLen
      = .error (.improperlyConfigured (notAnIntMsg "TOKEN_LIMIT" (PyVal.vStr "abc")))
    ∧ ¬ mentions (notAnIntMsg "TOKEN_LIMIT" (PyVal.vStr "abc")) "my-model" :=
  ⟨rfl, rfl, rfl, fun h => absurd (mentions_occurs_in_chars h) (by decide)⟩

/-- C6 (amended): resolution is atomic for both variants.
`BaseConfig.from_settings` and `BaseEmbeddingConfig.from_settings` each
either return a config in which every field equals what its resolver
produced and the class references are the ones passed in, or return the
exception raised by one of the field resolvers (an `ImproperlyConfigured`
for a `ValueError` override or a missing per-model default, or an uncaught
`TypeError` — so the error need not identify both the field and the
model) — never a partially constructed config.  The embedding variant
resolves the embedding dimensions first — its exception is the exception
of the whole call — and then delegates to the base resolution.  (The
embedding is pure, so no state change is possible on either path.) -/
theorem from_settings_resolves_atomically {S : Type} (collab : Collaborators)
    (sb : BaseConfigSettingsDict) (s : BaseEmbeddingConfigSettingsDict)
    (ts : TextSplitterArgs → S) (lc : Unit → TextSplitterLengthCalculator) :
    ((∃ c, BaseConfig.from_settings collab sb ts lc = .ok c
       ∧ BaseConfig.get_token_limit collab sb.MODEL_ID (dictGet sb.TOKEN_LIMIT)
           = .ok c.token_limit
       ∧ BaseConfig.get_chunk_overlap collab sb.MODEL_ID (dictGet sb.CHUNK_OVERLAP_CHARACTERS)
           = .ok c.chunk_overlap_characters
       ∧ c.model_id = sb.MODEL_ID
       ∧ c.text_splitter_class = ts
       ∧ c.text_splitter_length_calculator_class = lc)
    ∨ (∃ e, BaseConfig.from_settings collab sb ts lc = .error e
       ∧ (BaseConfig.get_token_limit collab sb.MODEL_ID (dictGet sb.TOKEN_LIMIT) = .error e
          ∨ BaseConfig.get_chunk_overlap collab sb.MODEL_ID
              (dictGet sb.CHUNK_OVERLAP_CHARACTERS) = .error e)))
    ∧ ((∃ c, BaseEmbeddingConfig.from_settings collab s ts lc = .ok c
       ∧ BaseEmbeddingConfig.get_embedding_output_dimensions collab s.MODEL_ID
           (dictGet s.EMBEDDING_OUTPUT_DIMENSIONS) = .ok c.embedding_output_dimensions
       ∧ BaseConfig.get_token_limit collab s.MODEL_ID (dictGet s.TOKEN_LIMIT)
           = .ok c.token_limit
       ∧ BaseConfig.get_chunk_overlap collab s.MODEL_ID (dictGet s.CHUNK_OVERLAP_CHARACTERS)
           = .ok c.chunk_overlap_characters
       ∧ c.model_id = s.MODEL_ID
       ∧ c.text_splitter_class = ts
       ∧ c.text_splitter_length_calculator_class = lc)
    ∨ (∃ e, BaseEmbeddingConfig.from_settings collab s ts lc = .error e
       ∧ (BaseEmbeddingConfig.get_embedding_output_dimensions collab s.MODEL_ID
             (dictGet s.EMBEDDING_OUTPUT_DIMENSIONS) = .error e
          ∨ BaseConfig.get_token_limit collab s.MODEL_ID (dictGet s.TOKEN_LIMIT) = .error e
          ∨ BaseConfig.get_chunk_overlap collab s.MODEL_ID
              (dictGet s.CHUNK_OVERLAP_CHARACTERS) = .error e)))
    ∧ (∀ e0, BaseEmbeddingConfig.get_embedding_output_dimensions collab s.MODEL_ID
          (dictGet s.EMBEDDING_OUTPUT_DIMENSIONS) = .error e0 →
        BaseEmbeddingConfig.from_settings collab s ts lc = .error e0) := by
  refine ⟨?_, ?_, fun e0 h => emb_from_settings_error_of_dimensions ts lc h⟩
  · cases h1 : BaseConfig.get_token_limit collab sb.MODEL_ID (dictGet sb.TOKEN_LIMIT) with
    | error e =>
      exact Or.inr ⟨e, from_settings_error_of_token_limit ts lc h1, Or.inl rfl⟩
    | ok t =>
      cases h2 : BaseConfig.get_chunk_overlap collab sb.MODEL_ID
          (dictGet sb.CHUNK_OVERLAP_CHARACTERS) with
      | error e =>
        refine Or.inr ⟨e, ?_, Or.inr rfl⟩
        unfold BaseConfig.from_settings
        rw [h1, h2]
      | ok o =>
        refine Or.inl ⟨{ chunk_overlap_characters := o
                         model_id := sb.MODEL_ID
                         text_splitter_class := ts
                         text_splitter_length_calculator_class := lc
                         token_limit := t },
          ?_, rfl, rfl, rfl, rfl, rfl⟩
        unfold BaseConfig.from_settings
        rw [h1, h2]
  · cases h0 : BaseEmbeddingConfig.get_embedding_output_dimensions collab s.MODEL_ID
        (dictGet s.EMBEDDING_OUTPUT_DIMENSIONS) with
    | error e =>
      exact Or.inr ⟨e, emb_from_settings_error_of_dimensions ts lc h0, Or.inl rfl⟩
    | ok d =>
      cases h1 : BaseConfig.get_token_limit collab s.MODEL_ID (dictGet s.TOKEN_LIMIT) with
      | error e =>
        refine Or.inr ⟨e, ?_, Or.inr (Or.inl rfl)⟩
        unfold BaseEmbeddingConfig.from_settings
        rw [h0, from_settings_error_of_token_limit ts lc h1]
      | ok t =>
        cases h2 : BaseConfig.get_chunk_overlap collab s.MODEL_ID
            (dictGet s.CHUNK_OVERLAP_CHARACTERS) with
        | error e =>
          refine Or.inr ⟨e, ?_, Or.inr (Or.inr rfl)⟩
          unfold BaseEmbeddingConfig.from_settings BaseConfig.from_settings
          rw [h0, h1, h2]
        | ok o =>
          refine Or.inl ⟨{ chunk_overlap_characters := o
                           model_id := s.MODEL_ID
                           text_splitter_class := ts
                           text_splitter_length_calculator_class := lc
                           token_limit := t
                           embedding_output_dimensions := d },
            ?_, rfl, rfl, rfl, rfl, rfl, rfl⟩
          unfold BaseEmbeddingConfig.from_settings BaseConfig.from_settings
          rw [h0, h1, h2]

/-- Witness for C6 (amended): with nothing registered for `unknown-model`
and every override absent, the embedding resolution fails with the
embedding-dimension error (resolved first), even though the token limit
would fail too. -/
theorem from_settings_resolves_atomically_witness :
    BaseEmbeddingConfig.from_settings emptyCollab seUnknown tsId lcLen
      = .error (.improperlyConfigured
          (notConfiguredMsg "EMBEDDING_OUTPUT_DIMENSIONS" "unknown-model")) :=
  (from_settings_resolves_atomically emptyCollab sUnknown seUnknown tsId lcLen).2.2
    (.improperlyConfigured (notConfiguredMsg "EMBEDDING_OUTPUT_DIMENSIONS" "unknown-model")) rfl

/-- C7: the settings mapping with `MODEL_ID = "gpt-4"` and
`TOKEN_LIMIT = "8000"` (a string) resolves, for every choice of lookup
tables and splitter classes, to a config whose `token_limit` is the integer
8000 — the string is coerced. -/
theorem string_token_limit_override_coerced {S : Type} (collab : Collaborators)
    (ts : TextSplitterArgs → S) (lc : Unit → TextSplitterLengthCalculator) :
    (BaseConfig.from_settings collab
      { MODEL_ID := "gpt-4"
        TOKEN_LIMIT := some (PyVal.vStr "8000")
        CHUNK_OVERLAP_CHARACTERS := none } ts lc).map (fun c => c.token_limit)
      = .ok 8000 := rfl

/-- C8: `get_text_splitter` calls the config's text-splitter class with
chunk size equal to `token_limit`, chunk overlap equal to
`chunk_overlap_characters`, and the length function delegated to an
instance of the configured length-calculation strategy class. -/
theorem text_splitter_constructed_from_config {S : Type} (b : BaseBackend S) :
    ∃ args : TextSplitterArgs,
      b.get_text_splitter = b.config.text_splitter_class args
      ∧ args.chunk_size = b.config.token_limit
      ∧ args.chunk_overlap = b.config.chunk_overlap_characters
      ∧ args.length_function
          = (b.config.text_splitter_length_calculator_class ()).get_splitter_length :=
  ⟨_, rfl, rfl, rfl, rfl⟩

/-- C9: an override key explicitly present with value `None` resolves
exactly like the key being absent, for each of the three override keys on
the base and embedding resolutions. -/
theorem none_override_equals_absent_key {S : Type} (collab : Collaborators)
    (s : BaseConfigSettingsDict) (se : BaseEmbeddingConfigSettingsDict)
    (ts : TextSplitterArgs → S) (lc : Unit → TextSplitterLengthCalculator) :
    BaseConfig.from_settings collab { s with TOKEN_LIMIT := some PyVal.vNone } ts lc
      = BaseConfig.from_settings collab { s with TOKEN_LIMIT := none } ts lc
    ∧ BaseConfig.from_settings collab
        { s with CHUNK_OVERLAP_CHARACTERS := some PyVal.vNone } ts lc
      = BaseConfig.from_settings collab { s with CHUNK_OVERLAP_CHARACTERS := none } ts lc
    ∧ BaseEmbeddingConfig.from_settings collab
        { se with EMBEDDING_OUTPUT_DIMENSIONS := some PyVal.vNone } ts lc
      = BaseEmbeddingConfig.from_settings collab
        { se with EMBEDDING_OUTPUT_DIMENSIONS := none } ts lc
    ∧ BaseEmbeddingConfig.from_settings collab { se with TOKEN_LIMIT := some PyVal.vNone } ts lc
      = BaseEmbeddingConfig.from_settings collab { se with TOKEN_LIMIT := none } ts lc
    ∧ BaseEmbeddingConfig.from_settings collab
        { se with CHUNK_OVERLAP_CHARACTERS := some PyVal.vNone } ts lc
      = BaseEmbeddingConfig.from_settings collab
        { se with CHUNK_OVERLAP_CHARACTERS := none } ts lc :=
  ⟨rfl, rfl, rfl, rfl, rfl⟩

/-- C10: the coercion step catches only `ValueError`.  A present float
override is silently truncated toward zero (e.g. `8.5 = 17/2` becomes 8,
`-8.5` becomes -8) and resolution succeeds with the truncated value, while
a present list override makes `int(...)` raise `TypeError`, which
propagates uncaught instead of becoming a configuration error. -/
theorem int_coercion_catches_only_value_error (collab : Collaborators) (m : String)
    (q : Rat) (xs : List PyVal) :
    BaseConfig.get_token_limit collab m (PyVal.vFloat q) = .ok (floatTrunc q)
    ∧ BaseConfig.get_chunk_overlap collab m (PyVal.vFloat q) = .ok (floatTrunc q)
    ∧ BaseEmbeddingConfig.get_embedding_output_dimensions collab m (PyVal.vFloat q)
        = .ok (floatTrunc q)
    ∧ (BaseConfig.from_settings collab
        { MODEL_ID := m
          TOKEN_LIMIT := some (PyVal.vFloat q)
          CHUNK_OVERLAP_CHARACTERS := none } tsId lcLen).map (fun c => c.token_limit)
        = .ok (floatTrunc q)
    ∧ floatTrunc (mkRat 17 2) = 8
    ∧ floatTrunc (mkRat (-17) 2) = -8
    ∧ BaseConfig.get_token_limit collab m (PyVal.vList xs) = .error PyErr.typeError
    ∧ BaseConfig.get_chunk_overlap collab m (PyVal.vList xs) = .error PyErr.typeError
    ∧ BaseEmbeddingConfig.get_embedding_output_dimensions collab m (PyVal.vList xs)
        = .error PyErr.typeError
    ∧ BaseConfig.from_settings collab
        { MODEL_ID := m
          TOKEN_LIMIT := some (PyVal.vList xs)
          CHUNK_OVERLAP_CHARACTERS := none } tsId lcLen = .error PyErr.typeError
    ∧ isConfigError (BaseConfig.get_token_limit collab m (PyVal.vList xs)) = false :=
  ⟨rfl, rfl, rfl, rfl, by decide, by decide, rfl, rfl, rfl, rfl, rfl⟩
